import Mathlib

/-
  Verification of the compressed-payload decoding utilities and the event
  formatting layer of the splunksolutionlib repository.

  Part one embeds splunksolutionlib/common/codecs.py. The Python standard
  library calls made by that module (gzip inflation and zip central-directory
  parsing) are external collaborators and are passed in as explicit oracle data, so
  every control-flow decision of the repository code itself is translated
  literally.

  Part two models the event record, the XML and HEC formatters and the JSON
  control-character escaping utility. Their implementation files are not part
  of the sources given here (only their tests are), so those definitions are
  modelled from the specification text, as their doc comments state.
-/

set_option maxRecDepth 4000

namespace Codecs

/-- A Python 2 byte string, one natural number per byte. -/
abbrev Bytes := List Nat

/-- An exception surfaced to the caller: either a ValueError carrying a message
    string, raised by the handler code itself, or an exception of some other
    type propagating out of a standard-library call that the handler does not
    catch (IOError, zlib.error, zipfile.BadZipfile, IndexError and so on),
    identified here by its description. -/
inductive PyError where
  | valueError (msg : String)
  | libError (exc : String)
deriving DecidableEq

/-- Decidable equality for call results, so that concrete runs of the embedded
    handlers can be checked by evaluation. -/
instance {ε α : Type} [DecidableEq ε] [DecidableEq α] :
    DecidableEq (Except ε α) := fun x y =>
  match x, y with
  | .ok a, .ok b =>
    if h : a = b then .isTrue (by rw [h])
    else .isFalse (by intro hc; cases hc; exact h rfl)
  | .error a, .error b =>
    if h : a = b then .isTrue (by rw [h])
    else .isFalse (by intro hc; cases hc; exact h rfl)
  | .ok _, .error _ => .isFalse (by intro hc; cases hc)
  | .error _, .ok _ => .isFalse (by intro hc; cases hc)

namespace GzipHandler

/-- Class-level error message of GzipHandler in codecs.py. -/
def ERR_INVALID_FORMAT : String := "File is not gzip format."

/-- GzipHandler.check_format: data[0:2] == the two gzip magic bytes. Python
    slicing never fails, so a buffer shorter than two bytes simply yields a
    short slice that cannot equal the magic. -/
def check_format (data : Bytes) : Bool :=
  data.take 2 == [0x1f, 0x8b]

/-- GzipHandler.decompress. The gzip.GzipFile(...).read() standard-library call
    is the oracle gzipRead: on success it yields the inflated bytes, on
    corruption it raises some non-ValueError exception. The source wraps that
    call in no try block, so a raised exception propagates to the caller. -/
def decompress (data : Bytes) (gzipRead : Bytes → Except String Bytes) :
    Except PyError Bytes :=
  if ¬ check_format data then .error (.valueError ERR_INVALID_FORMAT)
  else
    match gzipRead data with
    | .ok text => .ok text
    | .error exc => .error (.libError exc)

end GzipHandler

/-- One entry of a zip central directory as seen through
    zipfile.ZipInfo: its name and its recorded uncompressed size. -/
structure ZipEntry where
  filename : String
  file_size : Nat
deriving DecidableEq

/-- The behaviour of the zipfile standard library on one fixed input buffer,
    passed to the embedded ZipHandler as an oracle:
    isZip is the result of zipfile.is_zipfile (a light check for an
    end-of-central-directory signature); openExc is the exception raised by the
    zipfile.ZipFile constructor while parsing the central directory, if any
    (for example zipfile.BadZipfile on a buffer that carries the signature but
    no readable directory, in which case isZip is still true); entries is
    ZipFile.infolist() when construction succeeds; readEntry models
    ZipFile.read on a name, yielding the extracted bytes or the description of
    whatever exception the decode step raised. -/
structure ZipData where
  isZip : Bool
  openExc : Option String
  entries : List ZipEntry
  readEntry : String → Except String Bytes

namespace ZipHandler

/-- Class-level error message of ZipHandler in codecs.py. -/
def ERR_EXCESS_FILES : String :=
  "Zip files containing multiple files not supported by this handler."

/-- Class-level error message of ZipHandler in codecs.py. -/
def ERR_EXTRACT_ERROR : String := "Unknown exception when extracting zip file."

/-- Class-level error message of ZipHandler in codecs.py. -/
def ERR_INVALID_FORMAT : String := "File is not zip format."

/-- Class-level error message of ZipHandler in codecs.py. -/
def ERR_SIZE_MISMATCH : String := "Zip file size does not match actual size."

/-- ZipHandler.check_format: delegates to zipfile.is_zipfile. -/
def check_format (d : ZipData) : Bool := d.isZip

/-- ZipHandler.decompress, translated branch for branch from codecs.py:
    check_format failure raises ValueError(ERR_INVALID_FORMAT); the ZipFile
    constructor is outside any try, so an exception there propagates; then
    more than one infolist entry raises ValueError(ERR_EXCESS_FILES);
    otherwise the code evaluates files[0] and reads it inside a bare except
    that turns every exception, including the IndexError of files[0] on an
    empty list, into ValueError(ERR_EXTRACT_ERROR); finally an extracted
    length differing from the recorded file_size raises
    ValueError(ERR_SIZE_MISMATCH). -/
def decompress (d : ZipData) : Except PyError Bytes :=
  if ¬ check_format d then .error (.valueError ERR_INVALID_FORMAT)
  else
    match d.openExc with
    | some exc => .error (.libError exc)
    | none =>
      match d.entries with
      | [] => .error (.valueError ERR_EXTRACT_ERROR)
      | [f] =>
        match d.readEntry f.filename with
        | .error _ => .error (.valueError ERR_EXTRACT_ERROR)
        | .ok text =>
          if text.length ≠ f.file_size then .error (.valueError ERR_SIZE_MISMATCH)
          else .ok text
      | _ :: _ :: _ => .error (.valueError ERR_EXCESS_FILES)

end ZipHandler

/-- Classifies an exception as one of the four fixed ValueError failures that
    the raise statements of the two handlers can produce. -/
def isHandlerValueError (e : PyError) : Bool :=
  match e with
  | .valueError m =>
    m == GzipHandler.ERR_INVALID_FORMAT || m == ZipHandler.ERR_INVALID_FORMAT ||
    m == ZipHandler.ERR_EXCESS_FILES || m == ZipHandler.ERR_EXTRACT_ERROR ||
    m == ZipHandler.ERR_SIZE_MISMATCH
  | .libError _ => false

/-- A zip oracle for a well-formed archive holding two entries. -/
def sampleZipTwo : ZipData :=
  ⟨true, none, [⟨"a.txt", 1⟩, ⟨"b.txt", 1⟩], fun _ => .ok [65]⟩

/-- A zip oracle for a well-formed archive holding no entry at all. -/
def sampleZipEmpty : ZipData :=
  ⟨true, none, [], fun _ => .ok []⟩

/-- A zip oracle for a single-entry archive whose entry decodes to three bytes
    matching the recorded size. -/
def sampleZipOne : ZipData :=
  ⟨true, none, [⟨"payload.txt", 3⟩], fun _ => .ok [1, 2, 3]⟩

/-- A zip oracle for a single-entry archive whose decode step raises. -/
def sampleZipBadEntry : ZipData :=
  ⟨true, none, [⟨"payload.txt", 3⟩], fun _ => .error "zlib.error: invalid distance code"⟩

/-- A buffer that carries the end-of-central-directory signature, so
    is_zipfile accepts it, but whose central directory the ZipFile constructor
    cannot parse and therefore raises BadZipfile. -/
def sampleZipBadOpen : ZipData :=
  ⟨true, some "BadZipfile: Bad magic number for central directory", [], fun _ => .ok []⟩

/-- A byte buffer opening with the gzip magic pair followed by garbage. -/
def corruptGzipBytes : Bytes := [0x1f, 0x8b, 0x08, 0x00, 0x99]

/-- A gzip oracle behaving as the standard library does on a corrupt inflate
    stream: the read call raises a CRC failure, not a ValueError. -/
def failingInflate : Bytes → Except String Bytes :=
  fun _ => .error "IOError: CRC check failed"

/-- A gzip oracle that succeeds on every input, for exercising paths where the
    inflate step is never reached or never fails. -/
def okInflate : Bytes → Except String Bytes :=
  fun _ => .ok [104, 105]

end Codecs

namespace ModularInput

/-- Modelled from the spec: the Event record of the event model (its
    implementation module solnlib.modular_input.event is not among the given
    sources, only its tests are). Field data is the text payload; time is the
    required fractional-seconds timestamp, carried here as its decimal
    rendering because both formatters emit it verbatim with its full given
    precision; index, host, source and sourcetype are optional routing
    metadata, with the empty string standing for an absent value; stanza names
    the originating input configuration; unbroken and done are the independent
    fragment flags, both defaulting to false. -/
structure Event where
  data : String
  time : String
  index : String
  host : String
  source : String
  sourcetype : String
  stanza : String
  unbroken : Bool
  done : Bool

/-- Modelled from the spec: XML escaping of attribute values, replacing the
    ampersand, angle brackets and the double quote by their entities and
    keeping every other character, newlines included, as it is. -/
def escAttrChar (c : Char) : List Char :=
  if c = '&' then ['&', 'a', 'm', 'p', ';']
  else if c = '<' then ['&', 'l', 't', ';']
  else if c = '>' then ['&', 'g', 't', ';']
  else if c = '"' then ['&', 'q', 'u', 'o', 't', ';']
  else [c]

/-- Modelled from the spec: XML escaping of element text, replacing the
    ampersand and the angle brackets by their entities and keeping every other
    character, newlines included, as it is. -/
def escTextChar (c : Char) : List Char :=
  if c = '&' then ['&', 'a', 'm', 'p', ';']
  else if c = '<' then ['&', 'l', 't', ';']
  else if c = '>' then ['&', 'g', 't', ';']
  else [c]

/-- Attribute-value escaping lifted to strings. -/
def xmlEscapeAttr (s : String) : String := ⟨s.data.flatMap escAttrChar⟩

/-- Element-text escaping lifted to strings. -/
def xmlEscapeText (s : String) : String := ⟨s.data.flatMap escTextChar⟩

/-- Modelled from the spec: one child element of an event element, a tag pair
    enclosing the escaped field text. -/
def elemStr (tag : String) (v : String) : String :=
  "<" ++ tag ++ ">" ++ xmlEscapeText v ++ "</" ++ tag ++ ">"

/-- The empty done marker element. -/
def doneElem : String := "<done />"

/-- Modelled from the spec: the opening event tag, carrying the stanza
    attribute always and the unbroken attribute with value 1 exactly when the
    unbroken flag is set; the closing angle bracket is appended by the
    caller. -/
def openingTag (e : Event) : String :=
  "<event stanza=\"" ++ xmlEscapeAttr e.stanza ++ "\"" ++
    (if e.unbroken then " unbroken=\"1\"" else "")

/-- Modelled from the spec: the child elements of one event element, in the
    fixed order time, index, host, source, sourcetype, data, each emitted only
    when the field is non-empty, with the done marker appended as the last
    child exactly when the done flag is set. -/
def eventChildren (e : Event) : List String :=
  ([("time", e.time), ("index", e.index), ("host", e.host),
    ("source", e.source), ("sourcetype", e.sourcetype),
    ("data", e.data)].filterMap
      (fun p => if p.2 = "" then none else some (elemStr p.1 p.2))) ++
  (if e.done then [doneElem] else [])

/-- Modelled from the spec: one serialized event element. -/
def eventToXML (e : Event) : String :=
  openingTag e ++ ">" ++ String.join (eventChildren e) ++ "</event>"

/-- Modelled from the spec: grouping of the input sequence into contiguous
    runs sharing the same stanza, preserving order. -/
def groupByStanza : List Event → List (List Event)
  | [] => []
  | e :: es =>
    match groupByStanza es with
    | [] => [[e]]
    | [] :: gs => [e] :: gs
    | (f :: g) :: gs =>
      if e.stanza = f.stanza then (e :: f :: g) :: gs
      else [e] :: (f :: g) :: gs

namespace XMLEvent

/-- Modelled from the spec: XMLEvent.format_events, wrapping each contiguous
    same-stanza run of the input in one stream document and returning one
    string per document, events in input order. -/
def format_events (events : List Event) : List String :=
  (groupByStanza events).map
    (fun g => "<stream>" ++ String.join (g.map eventToXML) ++ "</stream>")

end XMLEvent

/-- Modelled from the spec: standard JSON string escaping of one character,
    covering the quote, the backslash and the common control characters. -/
def jsonEscChar (c : Char) : List Char :=
  if c = '"' then ['\\', '"']
  else if c = '\\' then ['\\', '\\']
  else if c = '\n' then ['\\', 'n']
  else if c = '\r' then ['\\', 'r']
  else if c = '\t' then ['\\', 't']
  else [c]

/-- A JSON string literal: escaped content between double quotes. -/
def jsonQuote (s : String) : String := "\"" ++ ⟨s.data.flatMap jsonEscChar⟩ ++ "\""

/-- Modelled from the spec: the key-value pairs of the HEC JSON object of one
    Event, values already rendered. The five optional keys appear only when
    the field is non-empty, time as a bare number and the rest as JSON
    strings; the event key always holds the raw data text; the unbroken and
    done flags contribute nothing. -/
def hecFields (e : Event) : List (String × String) :=
  (if e.time = "" then [] else [("time", e.time)]) ++
  (if e.index = "" then [] else [("index", jsonQuote e.index)]) ++
  (if e.host = "" then [] else [("host", jsonQuote e.host)]) ++
  (if e.source = "" then [] else [("source", jsonQuote e.source)]) ++
  (if e.sourcetype = "" then [] else [("sourcetype", jsonQuote e.sourcetype)]) ++
  [("event", jsonQuote e.data)]

/-- Modelled from the spec: one HEC JSON object rendered as text. -/
def hecObject (e : Event) : String :=
  "\x7b" ++
    String.intercalate ", "
      ((hecFields e).map (fun p => jsonQuote p.1 ++ ": " ++ p.2)) ++
  "\x7d"

namespace HECEvent

/-- Modelled from the spec: HECEvent.format_events under the minimal
    single-batch behaviour, serializing a non-empty input into one string of
    newline-joined JSON objects in input order. -/
def format_events (events : List Event) : List String :=
  if events.isEmpty then []
  else [String.intercalate "\n" (events.map hecObject)]

end HECEvent

/-- The recursion behind the escaping utility: a backslash followed by the
    literal letter r or n has its backslash doubled; everything else is
    copied. -/
def escapeCtrlAux : List Char → List Char
  | '\\' :: 'r' :: rest => '\\' :: '\\' :: 'r' :: escapeCtrlAux rest
  | '\\' :: 'n' :: rest => '\\' :: '\\' :: 'n' :: escapeCtrlAux rest
  | c :: rest => c :: escapeCtrlAux rest
  | [] => []

/-- Modelled from the spec: utils.escape_json_control_chars (the utils module
    is not among the given sources, only its tests are), doubling the
    backslash of every literal backslash-r and backslash-n sequence so that a
    later JSON embedding does not read it as an escape. -/
def escape_json_control_chars (s : String) : String := ⟨escapeCtrlAux s.data⟩

/-- The event of the worked XML example: test data3 with default flags. -/
def xmlExampleEvent : Event :=
  ⟨"This is a test data3.", "1372274622.493", "main", "localhost",
    "Splunk", "misc", "test_scheme://test", false, false⟩

/-- A HEC event with every field populated and both flags set, for witnesses. -/
def hecSampleEvent : Event :=
  ⟨"This is a test data2.", "1372274622.493", "main", "localhost",
    "Splunk", "misc", "test_scheme://test", true, true⟩

/-- The leading tag of a serialized element: its characters up to, and not
    including, the first closing angle bracket. -/
def leadingTag (s : String) : List Char :=
  s.data.takeWhile (fun c => c != '>')

end ModularInput

namespace Codecs

/-- The gzip format check accepts exactly the buffers that open with the two
    magic bytes. -/
theorem gzip_check_format_iff (data : Bytes) :
    GzipHandler.check_format data = true ↔
      ∃ rest, data = 0x1f :: 0x8b :: rest := by
  unfold GzipHandler.check_format
  cases data with
  | nil => simp
  | cons a t =>
    cases t with
    | nil => simp [List.take]
    | cons b t2 => simp [List.take]

/-- C1: a buffer that the zip structure check accepts and that opens as an
    archive with more than one entry is rejected with the ValueError carrying
    ERR_EXCESS_FILES, so the content of no entry is ever returned. -/
theorem zip_multi_entry_rejected (d : ZipData)
    (hz : ZipHandler.check_format d = true) (ho : d.openExc = none)
    (hn : 1 < d.entries.length) :
    ZipHandler.decompress d = .error (.valueError ZipHandler.ERR_EXCESS_FILES) := by
  obtain ⟨a, b, t, he⟩ : ∃ a b t, d.entries = a :: b :: t := by
    rcases hE : d.entries with _ | ⟨a, _ | ⟨b, t⟩⟩
    · rw [hE] at hn; simp at hn
    · rw [hE] at hn; simp at hn
    · exact ⟨a, b, t, rfl⟩
  simp [ZipHandler.decompress, hz, ho, he]

/-- C1 witness at the concrete two-entry archive oracle. -/
theorem zip_multi_entry_rejected_witness :
    ZipHandler.check_format sampleZipTwo = true ∧ sampleZipTwo.openExc = none ∧
    1 < sampleZipTwo.entries.length ∧
    ZipHandler.decompress sampleZipTwo =
      .error (.valueError ZipHandler.ERR_EXCESS_FILES) :=
  ⟨rfl, rfl, by decide, zip_multi_entry_rejected sampleZipTwo rfl rfl (by decide)⟩

/-- C2 (amended): when the magic check passes and the library inflate call
    fails, decompress propagates that library exception unchanged, and the
    failure is not the ValueError carrying ERR_INVALID_FORMAT. -/
theorem gzip_corruption_propagates (data : Bytes)
    (gzipRead : Bytes → Except String Bytes) (exc : String)
    (hm : GzipHandler.check_format data = true)
    (hc : gzipRead data = .error exc) :
    GzipHandler.decompress data gzipRead = .error (.libError exc) ∧
    PyError.libError exc ≠ PyError.valueError GzipHandler.ERR_INVALID_FORMAT := by
  exact ⟨by simp [GzipHandler.decompress, hm, hc], by simp⟩

/-- C2 witness at the concrete corrupt buffer and failing inflate oracle. -/
theorem gzip_corruption_propagates_witness :
    GzipHandler.decompress corruptGzipBytes failingInflate =
      .error (.libError "IOError: CRC check failed") ∧
    PyError.libError "IOError: CRC check failed" ≠
      PyError.valueError GzipHandler.ERR_INVALID_FORMAT :=
  gzip_corruption_propagates corruptGzipBytes failingInflate
    "IOError: CRC check failed" (by decide) rfl

/-- C2 counterexample: a buffer with the gzip magic whose inflate stream is
    corrupt makes decompress fail with the propagated library exception, which
    is not the ValueError carrying ERR_INVALID_FORMAT, refuting the claim that
    such corruption surfaces as the FormatError failure. -/
theorem gzip_corruption_not_format_error_cex :
    GzipHandler.decompress corruptGzipBytes failingInflate =
      .error (.libError "IOError: CRC check failed") ∧
    GzipHandler.decompress corruptGzipBytes failingInflate ≠
      .error (.valueError GzipHandler.ERR_INVALID_FORMAT) := by
  constructor
  · decide
  · decide

/-- C3 (amended): a buffer accepted by the zip structure check whose archive
    holds no entry makes decompress fail with the ValueError carrying
    ERR_EXTRACT_ERROR, the lookup of the first entry failing inside the
    catch-all extraction block. -/
theorem zip_empty_archive_extract_error (d : ZipData)
    (hz : ZipHandler.check_format d = true) (ho : d.openExc = none)
    (he : d.entries = []) :
    ZipHandler.decompress d =
      .error (.valueError ZipHandler.ERR_EXTRACT_ERROR) := by
  simp [ZipHandler.decompress, hz, ho, he]

/-- C3 witness at the concrete empty-archive oracle. -/
theorem zip_empty_archive_extract_error_witness :
    ZipHandler.check_format sampleZipEmpty = true ∧
    sampleZipEmpty.openExc = none ∧ sampleZipEmpty.entries = [] ∧
    ZipHandler.decompress sampleZipEmpty =
      .error (.valueError ZipHandler.ERR_EXTRACT_ERROR) :=
  ⟨rfl, rfl, rfl, zip_empty_archive_extract_error sampleZipEmpty rfl rfl rfl⟩

/-- C3 counterexample: on the empty archive the failure message is
    ERR_EXTRACT_ERROR and not ERR_INVALID_FORMAT, refuting the claim that a
    zero-entry archive surfaces as the FormatError failure. -/
theorem zip_empty_archive_not_format_error_cex :
    ZipHandler.decompress sampleZipEmpty =
      .error (.valueError ZipHandler.ERR_EXTRACT_ERROR) ∧
    ZipHandler.decompress sampleZipEmpty ≠
      .error (.valueError ZipHandler.ERR_INVALID_FORMAT) := by
  constructor
  · decide
  · decide

/-- C4: every buffer not opening with the gzip magic pair, shorter buffers
    included, fails the format check and makes decompress raise the ValueError
    carrying ERR_INVALID_FORMAT, and conversely every buffer opening with the
    pair passes the check. -/
theorem gzip_magic_gate (data : Bytes)
    (gzipRead : Bytes → Except String Bytes) :
    ((¬ ∃ rest, data = 0x1f :: 0x8b :: rest) →
      GzipHandler.check_format data = false ∧
      GzipHandler.decompress data gzipRead =
        .error (.valueError GzipHandler.ERR_INVALID_FORMAT)) ∧
    ((∃ rest, data = 0x1f :: 0x8b :: rest) →
      GzipHandler.check_format data = true) := by
  constructor
  · intro h
    have hf : GzipHandler.check_format data = false := by
      cases hcf : GzipHandler.check_format data with
      | false => rfl
      | true => exact absurd ((gzip_check_format_iff data).mp hcf) h
    exact ⟨hf, by simp [GzipHandler.decompress, hf]⟩
  · intro h
    exact (gzip_check_format_iff data).mpr h

/-- C4 witness: a one-byte buffer is rejected by check and decompress, and a
    buffer opening with the magic pair passes the check. -/
theorem gzip_magic_gate_witness :
    (GzipHandler.check_format [0x1f] = false ∧
     GzipHandler.decompress [0x1f] okInflate =
       .error (.valueError GzipHandler.ERR_INVALID_FORMAT)) ∧
    GzipHandler.check_format [0x1f, 0x8b, 0x00] = true :=
  ⟨(gzip_magic_gate [0x1f] okInflate).1 (by rintro ⟨rest, h⟩; simp at h),
   (gzip_magic_gate [0x1f, 0x8b, 0x00] okInflate).2 ⟨[0x00], rfl⟩⟩

/-- C5: on a single-entry archive whose entry extracts, decompress returns the
    extracted bytes exactly when their length matches the recorded size, fails
    with the ValueError carrying ERR_SIZE_MISMATCH whenever the length
    differs, and any bytes it returns have the recorded length. -/
theorem zip_single_entry_size (d : ZipData) (f : ZipEntry) (text : Bytes)
    (hz : ZipHandler.check_format d = true) (ho : d.openExc = none)
    (he : d.entries = [f]) (hr : d.readEntry f.filename = .ok text) :
    (text.length = f.file_size → ZipHandler.decompress d = .ok text) ∧
    (text.length ≠ f.file_size →
      ZipHandler.decompress d =
        .error (.valueError ZipHandler.ERR_SIZE_MISMATCH)) ∧
    (∀ out, ZipHandler.decompress d = .ok out → out.length = f.file_size) := by
  have hd : ZipHandler.decompress d =
      if text.length ≠ f.file_size then
        .error (.valueError ZipHandler.ERR_SIZE_MISMATCH)
      else .ok text := by
    simp [ZipHandler.decompress, hz, ho, he, hr]
  by_cases hl : text.length = f.file_size
  · refine ⟨fun _ => ?_, fun hn => absurd hl hn, fun out hout => ?_⟩
    · rw [hd]; simp [hl]
    · rw [hd] at hout
      simp [hl] at hout
      rw [← hout, ← hl]
  · refine ⟨fun hcl => absurd hcl hl, fun _ => ?_, fun out hout => ?_⟩
    · rw [hd]; simp [hl]
    · rw [hd] at hout
      simp [hl] at hout

/-- C5 witness at the concrete single-entry archive oracle. -/
theorem zip_single_entry_size_witness :
    ZipHandler.decompress sampleZipOne = .ok [1, 2, 3] ∧
    ([1, 2, 3] : Bytes).length = 3 :=
  ⟨(zip_single_entry_size sampleZipOne ⟨"payload.txt", 3⟩ [1, 2, 3]
      rfl rfl rfl rfl).1 (by decide), by decide⟩

/-- C10 (amended): the gzip format-validation failure and every failure the
    zip handler raises itself are ValueError values carrying one of the fixed
    class-level messages, the kinds differing only in that message, and any
    exception raised while reading the single entry is converted into the
    ERR_EXTRACT_ERROR ValueError; the one exception to the taxonomy is an
    error thrown while opening the central directory, which propagates
    unconverted. -/
theorem handler_error_taxonomy :
    (∀ (data : Bytes) (gzipRead : Bytes → Except String Bytes),
      GzipHandler.check_format data = false →
      GzipHandler.decompress data gzipRead =
        .error (.valueError GzipHandler.ERR_INVALID_FORMAT)) ∧
    (∀ (d : ZipData) (e : PyError), ZipHandler.decompress d = .error e →
      isHandlerValueError e = true ∨
        ∃ exc, d.openExc = some exc ∧ e = .libError exc) ∧
    (∀ (d : ZipData) (f : ZipEntry) (exc : String),
      ZipHandler.check_format d = true → d.openExc = none →
      d.entries = [f] → d.readEntry f.filename = .error exc →
      ZipHandler.decompress d =
        .error (.valueError ZipHandler.ERR_EXTRACT_ERROR)) := by
  refine ⟨?_, ?_, ?_⟩
  · intro data gzipRead hf
    simp [GzipHandler.decompress, hf]
  · intro d e h
    by_cases hz : ZipHandler.check_format d = true
    · rcases hO : d.openExc with _ | exc
      · rcases hE : d.entries with _ | ⟨f, _ | ⟨g, t⟩⟩
        · simp [ZipHandler.decompress, hz, hO, hE] at h
          left; rw [← h]; decide
        · rcases hR : d.readEntry f.filename with exc2 | text
          · simp [ZipHandler.decompress, hz, hO, hE, hR] at h
            left; rw [← h]; decide
          · by_cases hl : text.length = f.file_size
            · simp [ZipHandler.decompress, hz, hO, hE, hR, hl] at h
            · simp [ZipHandler.decompress, hz, hO, hE, hR, hl] at h
              left; rw [← h]; decide
        · simp [ZipHandler.decompress, hz, hO, hE] at h
          left; rw [← h]; decide
      · simp [ZipHandler.decompress, hz, hO] at h
        right; exact ⟨exc, rfl, by rw [← h]⟩
    · have hz2 : ZipHandler.check_format d = false := by
        cases hcf : ZipHandler.check_format d
        · rfl
        · exact absurd hcf hz
      simp [ZipHandler.decompress, hz2] at h
      left; rw [← h]; decide
  · intro d f exc hz ho he hr
    simp [ZipHandler.decompress, hz, ho, he, hr]

/-- C10 witness exercising each conjunct at a concrete input. -/
theorem handler_error_taxonomy_witness :
    GzipHandler.decompress [0x00] okInflate =
      .error (.valueError GzipHandler.ERR_INVALID_FORMAT) ∧
    (isHandlerValueError (.valueError ZipHandler.ERR_EXCESS_FILES) = true ∨
      ∃ exc, sampleZipTwo.openExc = some exc ∧
        PyError.valueError ZipHandler.ERR_EXCESS_FILES = .libError exc) ∧
    ZipHandler.decompress sampleZipBadEntry =
      .error (.valueError ZipHandler.ERR_EXTRACT_ERROR) :=
  ⟨handler_error_taxonomy.1 [0x00] okInflate (by decide),
   handler_error_taxonomy.2.1 sampleZipTwo
     (.valueError ZipHandler.ERR_EXCESS_FILES) (by decide),
   handler_error_taxonomy.2.2 sampleZipBadEntry ⟨"payload.txt", 3⟩
     "zlib.error: invalid distance code" rfl rfl rfl rfl⟩

/-- C10 counterexample: on a buffer whose end-of-central-directory signature
    passes the structure check while the central-directory parse raises,
    decompress surfaces that exception unconverted, so not every failure it
    raises is a ValueError carrying one of the fixed messages. -/
theorem zip_open_failure_not_value_error_cex :
    ZipHandler.decompress sampleZipBadOpen =
      .error (.libError "BadZipfile: Bad magic number for central directory") ∧
    isHandlerValueError
      (.libError "BadZipfile: Bad magic number for central directory") = false :=
  ⟨rfl, rfl⟩

end Codecs

namespace ModularInput

/-- Appending strings concatenates their character lists. -/
theorem strData_append (a b : String) : (a ++ b).data = a.data ++ b.data := rfl

/-- The character list of the empty string. -/
theorem strData_empty : ("" : String).data = [] := rfl

/-- The character list of the closing-bracket string. -/
theorem strData_gt : (">" : String).data = ['>'] := rfl

/-- Taking characters up to the first closing angle bracket recovers exactly a
    bracket-free prefix. -/
theorem takeWhile_append_gt (l r : List Char)
    (h : ∀ c ∈ l, (c != '>') = true) :
    (l ++ '>' :: r).takeWhile (fun c => c != '>') = l := by
  induction l with
  | nil => simp
  | cons a t ih =>
    have ha := h a (by simp)
    simp [List.takeWhile_cons, ha,
      ih (fun c hc => h c (by simp [hc]))]

/-- Attribute escaping emits no closing angle bracket for any input
    character. -/
theorem escAttrChar_ne_gt (a c : Char) (hc : c ∈ escAttrChar a) :
    (c != '>') = true := by
  unfold escAttrChar at hc
  split_ifs at hc with h1 h2 h3 h4
  · exact (by decide :
      ∀ x ∈ (['&', 'a', 'm', 'p', ';'] : List Char), (x != '>') = true) c hc
  · exact (by decide :
      ∀ x ∈ (['&', 'l', 't', ';'] : List Char), (x != '>') = true) c hc
  · exact (by decide :
      ∀ x ∈ (['&', 'g', 't', ';'] : List Char), (x != '>') = true) c hc
  · exact (by decide :
      ∀ x ∈ (['&', 'q', 'u', 'o', 't', ';'] : List Char), (x != '>') = true) c hc
  · have hca : c = a := by simpa using hc
    subst hca
    exact bne_iff_ne.mpr h3

/-- Escaped attribute values contain no closing angle bracket at all. -/
theorem xmlEscapeAttr_ne_gt (s : String) :
    ∀ c ∈ (xmlEscapeAttr s).data, (c != '>') = true := by
  intro c hc
  have hc2 : c ∈ s.data.flatMap escAttrChar := hc
  rw [List.mem_flatMap] at hc2
  obtain ⟨a, _, hca⟩ := hc2
  exact escAttrChar_ne_gt a c hca

/-- The opening event tag splits into the stanza part and the optional
    unbroken attribute. -/
theorem openingTag_data (e : Event) :
    (openingTag e).data =
      ("<event stanza=\"" ++ xmlEscapeAttr e.stanza ++ "\"").data ++
        (if e.unbroken then (" unbroken=\"1\"").data else []) := by
  cases hu : e.unbroken <;>
    simp [openingTag, hu, strData_append, strData_empty, List.append_assoc]

/-- No character of the opening event tag is a closing angle bracket. -/
theorem openingTag_ne_gt (e : Event) :
    ∀ c ∈ (openingTag e).data, (c != '>') = true := by
  intro c hc
  rw [openingTag_data] at hc
  rcases List.mem_append.mp hc with h1 | h2
  · rw [strData_append, strData_append] at h1
    rcases List.mem_append.mp h1 with h3 | h4
    · rcases List.mem_append.mp h3 with h5 | h6
      · exact (by decide :
          ∀ x ∈ ("<event stanza=\"" : String).data, (x != '>') = true) c h5
      · exact xmlEscapeAttr_ne_gt e.stanza c h6
    · exact (by decide :
        ∀ x ∈ ("\"" : String).data, (x != '>') = true) c h4
  · cases hu : e.unbroken
    · rw [hu] at h2; simp at h2
    · rw [hu] at h2
      exact (by decide :
        ∀ x ∈ (" unbroken=\"1\"" : String).data, (x != '>') = true) c (by simpa using h2)

/-- No rendered child element equals the done marker: the three characters
    after the opening bracket already differ for every child tag name. -/
theorem elemStr_ne_doneElem (tag v : String)
    (htag : tag ∈ (["time", "index", "host", "source", "sourcetype",
      "data"] : List String)) :
    elemStr tag v ≠ doneElem := by
  intro h
  fin_cases htag
  · exact absurd (show (['<', 't', 'i'] : List Char) = ['<', 'd', 'o'] from
      congrArg (fun s => s.data.take 3) h) (by decide)
  · exact absurd (show (['<', 'i', 'n'] : List Char) = ['<', 'd', 'o'] from
      congrArg (fun s => s.data.take 3) h) (by decide)
  · exact absurd (show (['<', 'h', 'o'] : List Char) = ['<', 'd', 'o'] from
      congrArg (fun s => s.data.take 3) h) (by decide)
  · exact absurd (show (['<', 's', 'o'] : List Char) = ['<', 'd', 'o'] from
      congrArg (fun s => s.data.take 3) h) (by decide)
  · exact absurd (show (['<', 's', 'o'] : List Char) = ['<', 'd', 'o'] from
      congrArg (fun s => s.data.take 3) h) (by decide)
  · exact absurd (show (['<', 'd', 'a'] : List Char) = ['<', 'd', 'o'] from
      congrArg (fun s => s.data.take 3) h) (by decide)

/-- C7: in the XML formatter each emitted event element opens with a tag that
    always carries the stanza attribute, carries the unbroken attribute with
    value one exactly when the unbroken flag is set and no unbroken attribute
    otherwise, and the done marker is the last child exactly when the done
    flag is set. -/
theorem xml_event_flag_attributes (e : Event) :
    leadingTag (eventToXML e) =
      ("<event stanza=\"" ++ xmlEscapeAttr e.stanza ++ "\"").data ++
        (if e.unbroken then (" unbroken=\"1\"").data else []) ∧
    ((eventChildren e).getLast? = some doneElem ↔ e.done = true) ∧
    eventToXML e =
      openingTag e ++ ">" ++ String.join (eventChildren e) ++ "</event>" := by
  refine ⟨?_, ?_, rfl⟩
  · have hx : (eventToXML e).data =
        (openingTag e).data ++
          '>' :: (String.join (eventChildren e) ++ "</event>").data := by
      simp [eventToXML, strData_append, strData_gt, List.append_assoc]
    unfold leadingTag
    rw [hx, takeWhile_append_gt _ _ (openingTag_ne_gt e), openingTag_data e]
  · cases hd : e.done
    · simp only [eventChildren, hd, Bool.false_eq_true, if_false,
        List.append_nil]
      constructor
      · intro hlast
        exfalso
        have hmem : doneElem ∈
            ([("time", e.time), ("index", e.index), ("host", e.host),
              ("source", e.source), ("sourcetype", e.sourcetype),
              ("data", e.data)].filterMap
                (fun p => if p.2 = "" then none
                  else some (elemStr p.1 p.2))) := by
          obtain ⟨hne, hx2⟩ :=
            List.mem_getLast?_eq_getLast (Option.mem_def.mpr hlast)
          rw [hx2]
          exact List.getLast_mem hne
        obtain ⟨p, hp, hf⟩ := List.mem_filterMap.mp hmem
        by_cases hpe : p.2 = ""
        · rw [if_pos hpe] at hf; cases hf
        · rw [if_neg hpe] at hf
          have hEl : elemStr p.1 p.2 = doneElem := Option.some.inj hf
          have hp1 : p.1 ∈ (["time", "index", "host", "source",
              "sourcetype", "data"] : List String) := by
            simp only [List.mem_cons, List.not_mem_nil, or_false] at hp
            rcases hp with rfl | rfl | rfl | rfl | rfl | rfl <;> simp
          exact elemStr_ne_doneElem p.1 p.2 hp1 hEl
      · intro hcontra; cases hcontra
    · simp [eventChildren, hd, List.getLast?_concat]

/-- C7 witness at the worked example event. -/
theorem xml_event_flag_attributes_witness :
    leadingTag (eventToXML xmlExampleEvent) =
      ("<event stanza=\"" ++ xmlEscapeAttr xmlExampleEvent.stanza ++
        "\"").data ++
        (if xmlExampleEvent.unbroken then (" unbroken=\"1\"").data else []) ∧
    ((eventChildren xmlExampleEvent).getLast? = some doneElem ↔
      xmlExampleEvent.done = true) :=
  ⟨(xml_event_flag_attributes xmlExampleEvent).1,
   (xml_event_flag_attributes xmlExampleEvent).2.1⟩

/-- C6: the XML formatter on the single default-flag example event returns
    exactly the expected one-element stream string, children in the fixed
    order and the timestamp rendered with its full given precision. -/
theorem xml_format_example :
    XMLEvent.format_events [xmlExampleEvent] =
      ["<stream><event stanza=\"test_scheme://test\"><time>1372274622.493</time><index>main</index><host>localhost</host><source>Splunk</source><sourcetype>misc</sourcetype><data>This is a test data3.</data></event></stream>"] := by
  decide

end ModularInput

namespace ModularInput

/-- Exactly the event key and the non-empty optional fields contribute a key
    to the HEC JSON object. -/
theorem hecFields_key_mem (e : Event) (k : String) :
    k ∈ (hecFields e).map Prod.fst ↔
      (k = "event" ∨ (k = "time" ∧ e.time ≠ "") ∨
       (k = "index" ∧ e.index ≠ "") ∨ (k = "host" ∧ e.host ≠ "") ∨
       (k = "source" ∧ e.source ≠ "") ∨
       (k = "sourcetype" ∧ e.sourcetype ≠ "")) := by
  unfold hecFields
  by_cases h1 : e.time = "" <;> by_cases h2 : e.index = "" <;>
    by_cases h3 : e.host = "" <;> by_cases h4 : e.source = "" <;>
    by_cases h5 : e.sourcetype = "" <;>
    simp [h1, h2, h3, h4, h5] <;> tauto

/-- C8: the HEC formatter turns a non-empty input into a single batch string
    of one JSON object per event joined by single newlines in input order,
    each object holding the event key with the raw data plus exactly those of
    the optional keys whose field is non-empty, and never an unbroken or done
    key. -/
theorem hec_format_batch (es : List Event) (h : es ≠ []) :
    HECEvent.format_events es =
      [String.intercalate "\n" (es.map hecObject)] ∧
    ∀ e ∈ es,
      ("event", jsonQuote e.data) ∈ hecFields e ∧
      (∀ k, k ∈ (hecFields e).map Prod.fst ↔
        (k = "event" ∨ (k = "time" ∧ e.time ≠ "") ∨
         (k = "index" ∧ e.index ≠ "") ∨ (k = "host" ∧ e.host ≠ "") ∨
         (k = "source" ∧ e.source ≠ "") ∨
         (k = "sourcetype" ∧ e.sourcetype ≠ ""))) ∧
      "unbroken" ∉ (hecFields e).map Prod.fst ∧
      "done" ∉ (hecFields e).map Prod.fst := by
  refine ⟨?_, ?_⟩
  · have hne : es.isEmpty = false := List.isEmpty_eq_false.mpr h
    simp [HECEvent.format_events, hne]
  · intro e _
    refine ⟨?_, hecFields_key_mem e, ?_, ?_⟩
    · unfold hecFields; simp
    · intro hmem
      rcases (hecFields_key_mem e "unbroken").mp hmem with
        hX | ⟨hX, _⟩ | ⟨hX, _⟩ | ⟨hX, _⟩ | ⟨hX, _⟩ | ⟨hX, _⟩ <;>
        exact absurd hX (by decide)
    · intro hmem
      rcases (hecFields_key_mem e "done").mp hmem with
        hX | ⟨hX, _⟩ | ⟨hX, _⟩ | ⟨hX, _⟩ | ⟨hX, _⟩ | ⟨hX, _⟩ <;>
        exact absurd hX (by decide)

/-- C8 witness at a concrete one-event batch with both flags set. -/
theorem hec_format_batch_witness :
    HECEvent.format_events [hecSampleEvent] =
      [String.intercalate "\n" ([hecSampleEvent].map hecObject)] ∧
    ("event", jsonQuote hecSampleEvent.data) ∈ hecFields hecSampleEvent ∧
    "unbroken" ∉ (hecFields hecSampleEvent).map Prod.fst ∧
    "done" ∉ (hecFields hecSampleEvent).map Prod.fst :=
  ⟨(hec_format_batch [hecSampleEvent] (List.cons_ne_nil _ _)).1,
   ((hec_format_batch [hecSampleEvent] (List.cons_ne_nil _ _)).2
     hecSampleEvent (by simp)).1,
   ((hec_format_batch [hecSampleEvent] (List.cons_ne_nil _ _)).2
     hecSampleEvent (by simp)).2.2.1,
   ((hec_format_batch [hecSampleEvent] (List.cons_ne_nil _ _)).2
     hecSampleEvent (by simp)).2.2.2⟩

/-- C9 counterexample: the literal text hello backslash n world holds twelve
    characters, not nine as the claim counts it, though the escaping utility
    does map it to the doubled-backslash form. -/
theorem escape_literal_not_nine_chars_cex :
    ("hello\\nworld" : String).length = 12 ∧
    ¬ ("hello\\nworld" : String).length = 9 ∧
    escape_json_control_chars "hello\\nworld" = "hello\\\\nworld" := by
  decide

/-- C9 (amended): the escaping utility maps the twelve-character literal text
    hello backslash n world to the form with a doubled backslash, and likewise
    doubles the backslash of a literal backslash r sequence. -/
theorem escape_doubles_backslash :
    escape_json_control_chars "hello\\nworld" = "hello\\\\nworld" ∧
    ("hello\\nworld" : String).length = 12 ∧
    escape_json_control_chars "hello\\rworld" = "hello\\\\rworld" := by
  decide

end ModularInput
